import Mathlib

/-!
Verification of the Z21/XpressNet command-station client (keskad/loco).

This file gives a shallow embedding of the command-station protocol core:
frame builders, address/CV wire encodings, response parsing, the function
bit-field model, the retry loop of readCVValue, the verify logic of WriteCV,
and the track-power teardown, translated from
pkgs/commandstation/z21.go, pkgs/commandstation/z21_proto.go and the
package declarations (types.go contents).

Bytes are modelled as Nat; a Go conversion byte(e) is embedded as e % 256,
uint16 arithmetic wraps with % 65536 where Go wraps. Socket I/O is
abstracted by oracles: sendAndAwait becomes a function from the request
frame and the attempt index to an outcome, and slice indexing is modelled
by a checked access in the Except monad so that out-of-range access is
observable as an error value.
-/

namespace Loco

/-- xorSum from the source (test_pkg/main.go, also used by the
commandstation builders): XOR-fold over the bytes, starting from 0. -/
def xorSum (b : List Nat) : Nat := b.foldl Nat.xor 0

/-- binary.LittleEndian.PutUint16: low byte first. -/
def putUint16LE (v : Nat) : List Nat := [v % 256, v / 256 % 256]

/-- Go conversion byte(v) of an int value: the low 8 bits (two's complement). -/
def byteOfInt (v : Int) : Nat := (v % 256).toNat

/-- Mode constant MainTrackMode = "pom". -/
def MainTrackMode : String := "pom"

/-- Mode constant ProgrammingTrackMode = "prog". -/
def ProgrammingTrackMode : String := "prog"

/-- CV is a pair CVx=y. Num is the 1-based CV number (Go type CVNum =
uint16, so the stored value is below 65536); Value is a Go int. -/
structure CV where
  num : Nat
  value : Int
deriving DecidableEq

/-- CV.Translate from the source: uint16(cv.Num - 1), i.e. subtraction
modulo 2^16 on the stored uint16. -/
def CV.Translate (cv : CV) : Nat := (cv.num + 65535) % 65536

/-- LocoCV pairs a locomotive address (LocoAddr = uint16) with a CV. -/
structure LocoCV where
  locoId : Nat
  cv : CV
deriving DecidableEq

/-- LAN_X_CV_POM_READ_BYTE (E6 30 … option 0xE4), z21_proto.go. -/
def buildPomReadPacket (lcv : LocoCV) : List Nat :=
  let dataLen := 0x000C
  let header := 0x0040
  let cvWire := lcv.cv.Translate
  let adrMSB := ((lcv.locoId >>> 8) &&& 0x3F) % 256
  let adrMSB := if lcv.locoId ≥ 128 then adrMSB ||| 0xC0 else adrMSB
  let adrLSB := (lcv.locoId &&& 0xFF) % 256
  let db3 := (0xE4 ||| ((cvWire >>> 8) &&& 0x03)) % 256
  let db4 := (cvWire &&& 0xFF) % 256
  let x := [0xE6, 0x30, adrMSB, adrLSB, db3, db4, 0x00]
  putUint16LE dataLen ++ putUint16LE header ++ x ++ [xorSum x]

/-- LAN_X_CV_POM_WRITE_BYTE (E6 30 … option 0xEC), z21_proto.go. -/
def buildPomWriteByte (lcv : LocoCV) : List Nat :=
  let dataLen := 0x000C
  let header := 0x0040
  let addr := lcv.locoId
  let cvWire := lcv.cv.Translate
  let value := byteOfInt lcv.cv.value
  let adrMSB := ((addr >>> 8) &&& 0x3F) % 256
  let adrMSB := if addr ≥ 128 then adrMSB ||| 0xC0 else adrMSB
  let adrLSB := (addr &&& 0xFF) % 256
  let db3 := (0xEC ||| ((cvWire >>> 8) &&& 0x03)) % 256
  let db4 := (cvWire &&& 0xFF) % 256
  let x := [0xE6, 0x30, adrMSB, adrLSB, db3, db4, value]
  putUint16LE dataLen ++ putUint16LE header ++ x ++ [xorSum x]

/-- LAN_X_CV_READ (23 11), programming track, z21_proto.go. The source
declares dataLen = 0x000B even though the produced frame has 9 bytes. -/
def buildProgReadPacket (cv : CV) : List Nat :=
  let dataLen := 0x000B
  let header := 0x0040
  let cvWire := cv.Translate
  let x := [0x23, 0x11, (cvWire >>> 8) % 256, (cvWire &&& 0xFF) % 256]
  putUint16LE dataLen ++ putUint16LE header ++ x ++ [xorSum x]

/-- LAN_X_CV_WRITE (24 12), programming track, z21_proto.go. -/
def buildProgWritePacket (lcv : LocoCV) : List Nat :=
  let dataLen := 0x000A
  let header := 0x0040
  let cvWire := lcv.cv.Translate
  let value := byteOfInt lcv.cv.value
  let x := [0x24, 0x12, (cvWire >>> 8) % 256, (cvWire &&& 0xFF) % 256, value]
  putUint16LE dataLen ++ putUint16LE header ++ x ++ [xorSum x]

/-- Track power ON (21 81), z21_proto.go. -/
def buildTrackPowerOn : List Nat :=
  let dataLen := 0x0007
  let header := 0x0040
  let x := [0x21, 0x81]
  putUint16LE dataLen ++ putUint16LE header ++ x ++ [xorSum x]

/-- LAN_X_GET_LOCO_INFO (E3 F0), z21_proto.go. -/
def buildGetLocoInfo (addr : Nat) : List Nat :=
  let dataLen := 0x0009
  let header := 0x0040
  let adrMSB := ((addr >>> 8) &&& 0x3F) % 256
  let adrMSB := if addr ≥ 128 then adrMSB ||| 0xC0 else adrMSB
  let adrLSB := (addr &&& 0xFF) % 256
  let x := [0xE3, 0xF0, adrMSB, adrLSB]
  putUint16LE dataLen ++ putUint16LE header ++ x ++ [xorSum x]

/-- LAN_X_SET_LOCO_FUNCTION (E4 F8), z21_proto.go. DB3 is TT FFFFFF:
type bits 01 = on, 00 = off, in the top two bits, function number in the
low six bits. -/
def buildSetLocoFunction (addr : Nat) (fn : Nat) (toggle : Bool) : List Nat :=
  let dataLen := 0x000A
  let header := 0x0040
  let adrMSB := ((addr >>> 8) &&& 0x3F) % 256
  let adrMSB := if addr ≥ 128 then adrMSB ||| 0xC0 else adrMSB
  let adrLSB := (addr &&& 0xFF) % 256
  let typeBits := if toggle then 0x40 else 0x00
  let db3 := (typeBits ||| (fn &&& 0x3F)) % 256
  let x := [0xE4, 0xF8, adrMSB, adrLSB, db3]
  putUint16LE dataLen ++ putUint16LE header ++ x ++ [xorSum x]

/-- LAN_X_SET_LOCO_DRIVE (E4 0x1S), z21_proto.go. Speed encoding depends
on the step selector (0 = 14 steps, 2 = 28 steps, 4 = 128 steps). -/
def buildSetLocoSpeed (addr : Nat) (speedIn : Nat) (forward : Bool) (speedSteps : Nat) : List Nat :=
  let dataLen := 0x000A
  let header := 0x0040
  let adrMSB := ((addr >>> 8) &&& 0x3F) % 256
  let adrMSB := if addr ≥ 128 then adrMSB ||| 0xC0 else adrMSB
  let adrLSB := (addr &&& 0xFF) % 256
  let db0 := (0x10 ||| (speedSteps &&& 0x0F)) % 256
  let dir := if forward then 0x80 else 0x00
  let db3 :=
    if speedSteps = 0 then
      let speed := if speedIn > 15 then 15 else speedIn
      dir ||| (speed &&& 0x0F)
    else if speedSteps = 2 then
      let speed := if speedIn > 28 then 28 else speedIn
      if speed > 0 then
        let speedBits := (speed + 3) / 2
        let speedBit5 := (speed + 3) % 2
        dir ||| (((speedBit5 <<< 4) ||| (speedBits &&& 0x0F)) % 256)
      else dir
    else if speedSteps = 4 then
      let speed := if speedIn > 127 then 127 else speedIn
      dir ||| (speed &&& 0x7F)
    else
      dir ||| (speedIn &&& 0x7F)
  let x := [0xE4, db0, adrMSB, adrLSB, db3]
  putUint16LE dataLen ++ putUint16LE header ++ x ++ [xorSum x]

/-!  Response parsing (z21.go).  Slice indexing is modelled by `byteAt`,
which errs instead of panicking when the index is out of range; the
parsers run in `Except Unit` over it, so freedom from out-of-range access
is the statement that a parser never returns `Except.error`. -/

/-- Checked Go slice access pkt[i]. -/
def byteAt (pkt : List Nat) (i : Nat) : Except Unit Nat :=
  match pkt[i]? with
  | some b => Except.ok b
  | none => Except.error ()

/-- cvResult from z21.go: cv is the wire CV number (0 = CV1), source is
the response family string. -/
structure cvResult where
  cv : Nat
  value : Nat
  source : String
deriving DecidableEq

/-- cvResult.Error from z21.go: nil for a result, a protocol-side error
for the two NACK families, unknown otherwise. -/
def cvResult.Error (res : cvResult) : Option String :=
  if res.source = "LAN_X_CV_RESULT" then none
  else if res.source = "LAN_X_CV_NACK" then some "missing RailCom acknowledgement (NACK_SC)"
  else if res.source = "LAN_X_CV_NACK_SC" then some "short circuit (LAN_X_CV_NACK_SC)"
  else some ("unknown error (" ++ res.source ++ ")")

/-- parseCVResponse from z21.go. `ok none` is Go's (cvResult{}, false):
the datagram is structurally rejected. The header and length words are
binary.LittleEndian.Uint16 of bytes 0-1 and 2-3. -/
def parseCVResponse (pkt : List Nat) : Except Unit (Option cvResult) := do
  if pkt.length < 6 then
    return none
  let b0 ← byteAt pkt 0
  let b1 ← byteAt pkt 1
  let b2 ← byteAt pkt 2
  let b3 ← byteAt pkt 3
  let dataLen := b0 ||| (b1 <<< 8)
  let header := b2 ||| (b3 <<< 8)
  if header ≠ 0x0040 ∨ dataLen ≠ pkt.length then
    return none
  if pkt.length ≥ 10 then
    let b4 ← byteAt pkt 4
    let b5 ← byteAt pkt 5
    if b4 = 0x64 ∧ b5 = 0x14 then
      let b6 ← byteAt pkt 6
      let b7 ← byteAt pkt 7
      let b8 ← byteAt pkt 8
      return some ⟨(b6 <<< 8) ||| b7, b8, "LAN_X_CV_RESULT"⟩
  let b4 ← byteAt pkt 4
  let b5 ← byteAt pkt 5
  if b4 = 0x61 ∧ b5 = 0x13 then
    return some ⟨0, 0, "LAN_X_CV_NACK"⟩
  if b4 = 0x61 ∧ b5 = 0x12 then
    return some ⟨0, 0, "LAN_X_CV_NACK_SC"⟩
  return none

/-- fnState from z21.go: function bits F0..F31 of one loco, bytes DB4..DB8
of LAN_X_LOCO_INFO. -/
structure fnState where
  B0_4 : Nat
  B5_12 : Nat
  B13_20 : Nat
  B21_28 : Nat
  B29_31 : Nat
deriving DecidableEq

/-- parseLocoInfo from z21.go. The inner Except String is Go's error
return; the outer Except Unit is the checked-access layer. Bytes 9..13
are copied only when present, missing ones leave the field at zero. -/
def parseLocoInfo (pkt : List Nat) : Except Unit (Except String fnState) := do
  if pkt.length < 7 then
    return Except.error "packet too short"
  let b0 ← byteAt pkt 0
  let b1 ← byteAt pkt 1
  let b2 ← byteAt pkt 2
  let b3 ← byteAt pkt 3
  let dataLen := b0 ||| (b1 <<< 8)
  let header := b2 ||| (b3 <<< 8)
  if header ≠ 0x0040 ∨ dataLen ≠ pkt.length then
    return Except.error "invalid header or length"
  let b4 ← byteAt pkt 4
  if b4 ≠ 0xEF then
    return Except.error "not a LAN_X_LOCO_INFO packet"
  let d4 ← if pkt.length > 9 then byteAt pkt 9 else pure 0
  let d5 ← if pkt.length > 10 then byteAt pkt 10 else pure 0
  let d6 ← if pkt.length > 11 then byteAt pkt 11 else pure 0
  let d7 ← if pkt.length > 12 then byteAt pkt 12 else pure 0
  let d8 ← if pkt.length > 13 then byteAt pkt 13 else pure 0
  return Except.ok ⟨d4, d5, d6, d7, d8⟩

/-!  Function-state bit model (z21.go extractFunctionBit and the
switch inside updateFunctionStateCache).  The Go byte-typed masks
1 << (fnNum - c) are embedded with the byte conversion % 256; Go's
clear operation b &^ mask on a byte is b &&& (0xFF ^^^ mask). -/

/-- extractFunctionBit from z21.go. -/
def extractFunctionBit (state : fnState) (fnNum : Nat) : Bool :=
  if fnNum = 0 then
    state.B0_4 &&& 0x10 != 0
  else if 1 ≤ fnNum ∧ fnNum ≤ 4 then
    state.B0_4 &&& ((1 <<< (fnNum - 1)) % 256) != 0
  else if 5 ≤ fnNum ∧ fnNum ≤ 12 then
    state.B5_12 &&& ((1 <<< (fnNum - 5)) % 256) != 0
  else if 13 ≤ fnNum ∧ fnNum ≤ 20 then
    state.B13_20 &&& ((1 <<< (fnNum - 13)) % 256) != 0
  else if 21 ≤ fnNum ∧ fnNum ≤ 28 then
    state.B21_28 &&& ((1 <<< (fnNum - 21)) % 256) != 0
  else if 29 ≤ fnNum ∧ fnNum ≤ 31 then
    state.B29_31 &&& ((1 <<< (fnNum - 29)) % 256) != 0
  else
    false

/-- The bit-update switch of updateFunctionStateCache from z21.go (the
map/mutex wrapper around it carries no bit logic). A fnNum outside 0..31
matches no case and leaves the state unchanged. -/
def setFunctionBit (state : fnState) (fnNum : Nat) (toggle : Bool) : fnState :=
  if fnNum = 0 then
    if toggle then { state with B0_4 := state.B0_4 ||| 0x10 }
    else { state with B0_4 := state.B0_4 &&& (0xFF ^^^ 0x10) }
  else if 1 ≤ fnNum ∧ fnNum ≤ 4 then
    let mask := (1 <<< (fnNum - 1)) % 256
    if toggle then { state with B0_4 := state.B0_4 ||| mask }
    else { state with B0_4 := state.B0_4 &&& (0xFF ^^^ mask) }
  else if 5 ≤ fnNum ∧ fnNum ≤ 12 then
    let mask := (1 <<< (fnNum - 5)) % 256
    if toggle then { state with B5_12 := state.B5_12 ||| mask }
    else { state with B5_12 := state.B5_12 &&& (0xFF ^^^ mask) }
  else if 13 ≤ fnNum ∧ fnNum ≤ 20 then
    let mask := (1 <<< (fnNum - 13)) % 256
    if toggle then { state with B13_20 := state.B13_20 ||| mask }
    else { state with B13_20 := state.B13_20 &&& (0xFF ^^^ mask) }
  else if 21 ≤ fnNum ∧ fnNum ≤ 28 then
    let mask := (1 <<< (fnNum - 21)) % 256
    if toggle then { state with B21_28 := state.B21_28 ||| mask }
    else { state with B21_28 := state.B21_28 &&& (0xFF ^^^ mask) }
  else if 29 ≤ fnNum ∧ fnNum ≤ 31 then
    let mask := (1 <<< (fnNum - 29)) % 256
    if toggle then { state with B29_31 := state.B29_31 ||| mask }
    else { state with B29_31 := state.B29_31 &&& (0xFF ^^^ mask) }
  else
    state

/-!  Request context and the retry/verify orchestrator (z21.go). -/

/-- RequestContext. timeout and settle are Go time.Duration values, i.e.
integer nanosecond counts. retries is a uint8. -/
structure RequestContext where
  timeout : Nat
  verify : Bool
  retries : Nat
  settle : Nat
deriving DecidableEq

/-- The context literal WriteCV and ReadCV build before applying the
option functions: RequestContext{timeout: z.Timeout, verify: false,
retries: 2, settle: 200}. settle is a time.Duration, so the bare
literal 200 denotes 200 nanoseconds. -/
def defaultRequestContext (sessionTimeout : Nat) : RequestContext :=
  ⟨sessionTimeout, false, 2, 200⟩

/-- buildCVRequest from z21.go: mode dispatch over the frame builders. -/
def buildCVRequest (mode : String) (lcv : LocoCV) (isWriteRequest : Bool) :
    Except String (List Nat) :=
  if mode = MainTrackMode then
    if isWriteRequest then Except.ok (buildPomWriteByte lcv)
    else Except.ok (buildPomReadPacket lcv)
  else if mode = ProgrammingTrackMode then
    if isWriteRequest then Except.ok (buildProgWritePacket lcv)
    else Except.ok (buildProgReadPacket lcv.cv)
  else
    Except.error "unrecognized mode"

/-- Outcome of one sendAndAwait call: a transport/timeout error or a
structurally valid parsed cvResult. -/
inductive SendOutcome where
  | err (msg : String)
  | ok (res : cvResult)
deriving DecidableEq

/-- The retry loop body of readCVValue from z21.go. `transport req i` is
the outcome of sendAndAwait for the i-th attempt; the same request frame
is re-sent on every attempt, including the attempt after a semantic NACK
(the `continue` branch), which also skips the inter-attempt sleep.
`remaining` counts loop iterations left (Go: for i := 0; i <= retries). -/
def readCVAttempts (transport : List Nat → Nat → SendOutcome) (req : List Nat) :
    Nat → Nat → Option String → Except String cvResult
  | _, 0, lastErr => Except.error (lastErr.getD "")
  | i, remaining + 1, _lastErr =>
    match transport req i with
    | SendOutcome.ok res =>
      match res.Error with
      | some responseErr =>
        readCVAttempts transport req (i + 1) remaining
          (some ("cannot read CV: " ++ responseErr))
      | none => Except.ok res
    | SendOutcome.err e => readCVAttempts transport req (i + 1) remaining (some e)

/-- readCVValue from z21.go: builds the mode-specific read frame once,
then makes retries+1 attempts. -/
def readCVValue (mode : String) (lcv : LocoCV) (retries : Nat)
    (transport : List Nat → Nat → SendOutcome) : Except String cvResult :=
  match buildCVRequest mode lcv false with
  | Except.error reqErr => Except.error ("cannot build CV request: " ++ reqErr)
  | Except.ok req => readCVAttempts transport req 0 (retries + 1) none

/-- WriteCV from z21.go, with the socket abstracted: writeErr is the
outcome of z.write on the write frame, transport feeds the verify read.
The settle sleep before the verify read has no observable value here.
The power-flag defer is modelled separately by powerFlagAfterCVOp. -/
def WriteCVModel (mode : String) (lcv : LocoCV) (ctx : RequestContext)
    (writeErr : Option String) (transport : List Nat → Nat → SendOutcome) :
    Except String Unit :=
  match buildCVRequest mode lcv true with
  | Except.error err => Except.error ("cannot build CV request in WriteCV: " ++ err)
  | Except.ok _req =>
    match writeErr with
    | some e => Except.error ("cannot write CV: " ++ e)
    | none =>
      if ctx.verify then
        match readCVValue mode lcv ctx.retries transport with
        | Except.error readErr =>
          Except.error ("cannot verify CV was written: " ++ readErr)
        | Except.ok res =>
          if res.value = byteOfInt lcv.cv.value then Except.ok ()
          else Except.error "cannot write CV, the value differs after a write"
      else Except.ok ()

/-!  Track-power lifecycle (z21.go CleanUp, markBuildTrackPowerOff and the
deferred marking in WriteCV/ReadCV). -/

/-- The session power flag after a WriteCV/ReadCV call: both defer
markBuildTrackPowerOff exactly when the mode is ProgrammingTrackMode,
regardless of the operation's outcome. -/
def powerFlagAfterCVOp (mode : String) (wasPowerCutOff : Bool) : Bool :=
  if mode = ProgrammingTrackMode then true else wasPowerCutOff

/-- The frames handed to the socket write during CleanUp (z21.go). When
the flag is set the source evaluates Z.buildTrackPowerOn() and discards
the returned frame; z.write is called on neither path, so the trace of
written frames is empty either way. -/
def cleanUpWrites (wasPowerCutOff : Bool) : List (List Nat) :=
  if wasPowerCutOff then
    let _frame := buildTrackPowerOn
    []
  else
    []

/-!  Statement vocabulary. -/

/-- The classification claimed for parseCVResponse, written from the
claim's words: a packet is a CV result only when it is at least 10 bytes
long with header 0x0040 and declared length equal to actual length and
bytes 4-5 equal to 64 14; a NACK only when (under the same structural
validity) bytes 4-5 equal 61 13 or 61 12; every other input, including
all inputs shorter than 6 bytes, is rejected. -/
def parseCVResponseSpec (pkt : List Nat) : Option cvResult :=
  if 6 ≤ pkt.length ∧ pkt.getD 2 0 ||| (pkt.getD 3 0 <<< 8) = 0x0040 ∧
      pkt.getD 0 0 ||| (pkt.getD 1 0 <<< 8) = pkt.length then
    if 10 ≤ pkt.length ∧ pkt.getD 4 0 = 0x64 ∧ pkt.getD 5 0 = 0x14 then
      some ⟨(pkt.getD 6 0 <<< 8) ||| pkt.getD 7 0, pkt.getD 8 0, "LAN_X_CV_RESULT"⟩
    else if pkt.getD 4 0 = 0x61 ∧ pkt.getD 5 0 = 0x13 then
      some ⟨0, 0, "LAN_X_CV_NACK"⟩
    else if pkt.getD 4 0 = 0x61 ∧ pkt.getD 5 0 = 0x12 then
      some ⟨0, 0, "LAN_X_CV_NACK_SC"⟩
    else none
  else none

/-- Byte j of a fnState, j = 0..4 for DB4..DB8. -/
def fnStateByte (s : fnState) (j : Nat) : Nat :=
  match j with
  | 0 => s.B0_4
  | 1 => s.B5_12
  | 2 => s.B13_20
  | 3 => s.B21_28
  | 4 => s.B29_31
  | _ => 0

/-- The byte index the claimed F0..F31 layout assigns to a function
number: byte 0 holds F0 and F1-F4, byte 1 holds F5-F12, byte 2 holds
F13-F20, byte 3 holds F21-F28, byte 4 holds F29-F31. -/
def fnByteIdx (fn : Nat) : Nat :=
  if fn = 0 then 0
  else if 1 ≤ fn ∧ fn ≤ 4 then 0
  else if 5 ≤ fn ∧ fn ≤ 12 then 1
  else if 13 ≤ fn ∧ fn ≤ 20 then 2
  else if 21 ≤ fn ∧ fn ≤ 28 then 3
  else 4

/-- The bit index inside that byte: F0 sits at bit 4 of byte 0, the
other groups start at bit 0 of their byte. -/
def fnBitIdx (fn : Nat) : Nat :=
  if fn = 0 then 4
  else if 1 ≤ fn ∧ fn ≤ 4 then fn - 1
  else if 5 ≤ fn ∧ fn ≤ 12 then fn - 5
  else if 13 ≤ fn ∧ fn ≤ 20 then fn - 13
  else if 21 ≤ fn ∧ fn ≤ 28 then fn - 21
  else fn - 29

/-- Setting a single bit of a byte: or with the mask to turn on, and-not
(on the 8-bit complement, as Go's byte &^) to turn off. -/
def byteUpdate (b k : Nat) (toggle : Bool) : Nat :=
  if toggle then b ||| (1 <<< k) else b &&& (0xFF ^^^ (1 <<< k))

/-!  Generic byte and bit lemmas. -/

theorem one_shiftLeft_lt_256 (k : Nat) (h : k < 8) : 1 <<< k < 256 := by
  rw [Nat.one_shiftLeft]
  calc 2 ^ k ≤ 2 ^ 7 := Nat.pow_le_pow_right (by omega) (by omega)
    _ < 256 := by omega

theorem one_shiftLeft_mod_256 (k : Nat) (h : k < 8) : (1 <<< k) % 256 = 1 <<< k :=
  Nat.mod_eq_of_lt (one_shiftLeft_lt_256 k h)

theorem land_one_shiftLeft_bne (b k : Nat) : (b &&& (1 <<< k) != 0) = b.testBit k := by
  rw [Nat.one_shiftLeft, Nat.and_two_pow]
  cases h : b.testBit k <;> simp [h, Nat.pos_iff_ne_zero, Nat.two_pow_pos]

theorem testBit_lor_shift_self (b k : Nat) : (b ||| (1 <<< k)).testBit k = true := by
  simp [Nat.testBit_or, Nat.one_shiftLeft, Nat.testBit_two_pow_self]

theorem testBit_lor_shift_ne (b k j : Nat) (h : j ≠ k) :
    (b ||| (1 <<< k)).testBit j = b.testBit j := by
  simp [Nat.testBit_or, Nat.one_shiftLeft, Nat.testBit_two_pow_of_ne (fun hk => h hk.symm)]

theorem testBit_255 (j : Nat) : Nat.testBit 255 j = decide (j < 8) := by
  have h : (255 : Nat) = 2 ^ 8 - 1 := by norm_num
  rw [h, Nat.testBit_two_pow_sub_one]

theorem testBit_byteClear_self (b k : Nat) (hk : k < 8) :
    (b &&& (0xFF ^^^ (1 <<< k))).testBit k = false := by
  simp [Nat.testBit_and, Nat.testBit_xor, Nat.one_shiftLeft, Nat.testBit_two_pow_self,
    testBit_255, hk]

theorem testBit_byteClear_ne (b k j : Nat) (hj : j < 8) (h : j ≠ k) :
    (b &&& (0xFF ^^^ (1 <<< k))).testBit j = b.testBit j := by
  simp [Nat.testBit_and, Nat.testBit_xor, Nat.one_shiftLeft, testBit_255, hj,
    Nat.testBit_two_pow_of_ne (fun hk => h hk.symm)]

/-- Bit-disjoint concatenation: shifting a above k bits and or-ing a
k-bit value b is the same as positional addition. -/
theorem shiftLeft_lor_eq_add (a b k : Nat) (hb : b < 2 ^ k) :
    (a <<< k) ||| b = 2 ^ k * a + b := by
  apply Nat.eq_of_testBit_eq
  intro i
  rw [Nat.testBit_mul_pow_two_add a hb i]
  by_cases h : i < k
  · have hik : ¬ i ≥ k := by omega
    simp [Nat.testBit_or, Nat.testBit_shiftLeft, h, hik]
  · have hik : i ≥ k := by omega
    have hbi : b.testBit i = false :=
      Nat.testBit_lt_two_pow (Nat.lt_of_lt_of_le hb (Nat.pow_le_pow_right (by omega) hik))
    simp [Nat.testBit_or, Nat.testBit_shiftLeft, h, hik, hbi]

theorem land_255_eq_mod (x : Nat) : x &&& 0xFF = x % 256 := by
  have h : (0xFF : Nat) = 2 ^ 8 - 1 := by norm_num
  rw [h, Nat.and_pow_two_sub_one_eq_mod]

theorem byteUpdate_testBit_self (b k : Nat) (toggle : Bool) (hk : k < 8) :
    (byteUpdate b k toggle).testBit k = toggle := by
  cases toggle with
  | true => simp [byteUpdate, testBit_lor_shift_self]
  | false => simp [byteUpdate, testBit_byteClear_self b k hk]

theorem byteUpdate_testBit_ne (b k j : Nat) (toggle : Bool) (hj : j < 8) (h : j ≠ k) :
    (byteUpdate b k toggle).testBit j = b.testBit j := by
  cases toggle with
  | true => simp [byteUpdate, testBit_lor_shift_ne b k j h]
  | false => simp [byteUpdate, testBit_byteClear_ne b k j hj h]

/-!  Location bridges for the function-state model. -/

theorem extractFunctionBit_eq_testBit (s : fnState) (fn : Nat) (hfn : fn ≤ 31) :
    extractFunctionBit s fn =
      Nat.testBit (fnStateByte s (fnByteIdx fn)) (fnBitIdx fn) := by
  unfold extractFunctionBit fnByteIdx fnBitIdx
  have h16 : (0x10 : Nat) = 1 <<< 4 := rfl
  split_ifs with h0 h1 h2 h3 h4 h5
  · rw [h16, land_one_shiftLeft_bne]
    rfl
  · rw [one_shiftLeft_mod_256 (fn - 1) (by omega), land_one_shiftLeft_bne]
    rfl
  · rw [one_shiftLeft_mod_256 (fn - 5) (by omega), land_one_shiftLeft_bne]
    rfl
  · rw [one_shiftLeft_mod_256 (fn - 13) (by omega), land_one_shiftLeft_bne]
    rfl
  · rw [one_shiftLeft_mod_256 (fn - 21) (by omega), land_one_shiftLeft_bne]
    rfl
  · rw [one_shiftLeft_mod_256 (fn - 29) (by omega), land_one_shiftLeft_bne]
    rfl
  · omega

theorem setFunctionBit_byte (s : fnState) (fn : Nat) (toggle : Bool) (hfn : fn ≤ 31)
    (j : Nat) :
    fnStateByte (setFunctionBit s fn toggle) j =
      if j = fnByteIdx fn then byteUpdate (fnStateByte s j) (fnBitIdx fn) toggle
      else fnStateByte s j := by
  interval_cases fn <;>
    (rcases j with _ | _ | _ | _ | _ | j <;>
     cases toggle <;>
     simp [setFunctionBit, fnByteIdx, fnBitIdx, byteUpdate, fnStateByte])

theorem fnBitIdx_lt_8 : ∀ fn : Nat, fn < 32 → fnBitIdx fn < 8 := by decide

theorem fnLoc_inj : ∀ fn : Nat, fn < 32 → ∀ fn2 : Nat, fn2 < 32 → fn ≠ fn2 →
    fnByteIdx fn = fnByteIdx fn2 → fnBitIdx fn ≠ fnBitIdx fn2 := by decide

/-- C9: for every function number in 0..31, set-then-get returns the value
set, the bits of all other function numbers are untouched, the layout is
byte 0 = F0 at bit 4 plus F1-F4, byte 1 = F5-F12, byte 2 = F13-F20,
byte 3 = F21-F28, byte 4 = F29-F31; in particular set(0,true);get(0) is
true and set(29,true) changes only bit 0 of byte 4. -/
theorem functionState_set_get (s : fnState) (fn fn2 : Nat) (toggle : Bool)
    (hfn : fn ≤ 31) (hfn2 : fn2 ≤ 31) :
    (extractFunctionBit (setFunctionBit s fn toggle) fn = toggle) ∧
    (fn2 ≠ fn →
      extractFunctionBit (setFunctionBit s fn toggle) fn2 = extractFunctionBit s fn2) ∧
    (extractFunctionBit s fn = Nat.testBit (fnStateByte s (fnByteIdx fn)) (fnBitIdx fn)) ∧
    (extractFunctionBit (setFunctionBit s 0 true) 0 = true) ∧
    ((setFunctionBit s 29 true).B0_4 = s.B0_4 ∧
     (setFunctionBit s 29 true).B5_12 = s.B5_12 ∧
     (setFunctionBit s 29 true).B13_20 = s.B13_20 ∧
     (setFunctionBit s 29 true).B21_28 = s.B21_28 ∧
     (setFunctionBit s 29 true).B29_31 = s.B29_31 ||| 1) := by
  have hset : ∀ t : fnState, ∀ f : Nat, f ≤ 31 → ∀ tog : Bool,
      extractFunctionBit (setFunctionBit t f tog) f = tog := by
    intro t f hf tog
    rw [extractFunctionBit_eq_testBit _ f hf, setFunctionBit_byte t f tog hf]
    simp [byteUpdate_testBit_self _ _ _ (fnBitIdx_lt_8 f (by omega))]
  refine ⟨hset s fn hfn toggle, ?_, extractFunctionBit_eq_testBit s fn hfn,
    hset s 0 (by omega) true, rfl, rfl, rfl, rfl, rfl⟩
  intro hne
  rw [extractFunctionBit_eq_testBit _ fn2 hfn2, extractFunctionBit_eq_testBit s fn2 hfn2,
    setFunctionBit_byte s fn toggle hfn]
  by_cases hb : fnByteIdx fn2 = fnByteIdx fn
  · rw [if_pos hb]
    exact byteUpdate_testBit_ne _ _ _ toggle (fnBitIdx_lt_8 fn2 (by omega))
      (fnLoc_inj fn2 (by omega) fn (by omega) hne (by rw [hb]))
  · rw [if_neg hb]

/-- C9 witness at a concrete state and function numbers. -/
theorem functionState_set_get_witness :
    (extractFunctionBit (setFunctionBit ⟨1, 2, 3, 4, 5⟩ 7 true) 7 = true) ∧
    (extractFunctionBit (setFunctionBit ⟨1, 2, 3, 4, 5⟩ 7 true) 0 =
      extractFunctionBit ⟨1, 2, 3, 4, 5⟩ 0) :=
  ⟨(functionState_set_get ⟨1, 2, 3, 4, 5⟩ 7 0 true (by omega) (by omega)).1,
   (functionState_set_get ⟨1, 2, 3, 4, 5⟩ 7 0 true (by omega) (by omega)).2.1 (by omega)⟩

/-- C5: for every frame produced by any of the eight builders, the
trailing checksum byte equals the XOR of the payload bytes between the
4-byte length+header prefix and the checksum itself. -/
theorem frame_checksum_xor (lcv : LocoCV) (cv : CV) (addr fn speedIn speedSteps : Nat)
    (toggle forward : Bool) :
    (buildPomReadPacket lcv).getLast? =
      some (xorSum (((buildPomReadPacket lcv).drop 4).dropLast)) ∧
    (buildPomWriteByte lcv).getLast? =
      some (xorSum (((buildPomWriteByte lcv).drop 4).dropLast)) ∧
    (buildProgReadPacket cv).getLast? =
      some (xorSum (((buildProgReadPacket cv).drop 4).dropLast)) ∧
    (buildProgWritePacket lcv).getLast? =
      some (xorSum (((buildProgWritePacket lcv).drop 4).dropLast)) ∧
    buildTrackPowerOn.getLast? =
      some (xorSum ((buildTrackPowerOn.drop 4).dropLast)) ∧
    (buildGetLocoInfo addr).getLast? =
      some (xorSum (((buildGetLocoInfo addr).drop 4).dropLast)) ∧
    (buildSetLocoFunction addr fn toggle).getLast? =
      some (xorSum (((buildSetLocoFunction addr fn toggle).drop 4).dropLast)) ∧
    (buildSetLocoSpeed addr speedIn forward speedSteps).getLast? =
      some (xorSum (((buildSetLocoSpeed addr speedIn forward speedSteps).drop 4).dropLast)) := by
  refine ⟨rfl, rfl, rfl, rfl, rfl, rfl, rfl, rfl⟩

/-- C4: the programming-track read builder violates the length-field
invariant: at CV 1 the leading little-endian length word says 11 while
the produced frame has 9 bytes (every other builder's length word does
match; the prog write frame at the same CV is 10 bytes declaring 10). -/
theorem progRead_length_field_mismatch :
    ((buildProgReadPacket ⟨1, 0⟩).getD 0 0 |||
      ((buildProgReadPacket ⟨1, 0⟩).getD 1 0 <<< 8)) = 11 ∧
    (buildProgReadPacket ⟨1, 0⟩).length = 9 ∧
    ((buildProgWritePacket ⟨3, 1, 5⟩).getD 0 0 |||
      ((buildProgWritePacket ⟨3, 1, 5⟩).getD 1 0 <<< 8)) = 10 ∧
    (buildProgWritePacket ⟨3, 1, 5⟩).length = 10 := by
  refine ⟨rfl, rfl, rfl, rfl⟩

/-- C2: a ProgrammingTrack CV operation always sets the session power
flag, but CleanUp never writes a frame to the socket: it evaluates
buildTrackPowerOn() and discards the frame, so the track-power-restore
frame 21 81 (shown last) is never sent, against the claim of exactly one
restore frame. -/
theorem cleanup_power_restore_not_sent :
    powerFlagAfterCVOp ProgrammingTrackMode false = true ∧
    powerFlagAfterCVOp ProgrammingTrackMode true = true ∧
    powerFlagAfterCVOp MainTrackMode false = false ∧
    cleanUpWrites true = [] ∧
    cleanUpWrites false = [] ∧
    buildTrackPowerOn = [7, 0, 0x40, 0, 0x21, 0x81, 0xA0] := by
  refine ⟨rfl, rfl, rfl, rfl, rfl, rfl⟩

/-- C3: the context built by WriteCV/ReadCV with no option-functions has
retries = 2 and verify = false as claimed, but settle is the bare
time.Duration literal 200, i.e. 200 nanoseconds, not the claimed
approximately 200 milliseconds (200000000 ns). -/
theorem default_request_context (t : Nat) :
    (defaultRequestContext t).retries = 2 ∧
    (defaultRequestContext t).verify = false ∧
    (defaultRequestContext t).timeout = t ∧
    (defaultRequestContext t).settle = 200 ∧
    (defaultRequestContext t).settle ≠ 200000000 := by
  exact ⟨rfl, rfl, rfl, rfl, by simp [defaultRequestContext]⟩

theorem readCVAttempts_allNack (transport : List Nat → Nat → SendOutcome)
    (hnack : ∀ req i, transport req i = SendOutcome.ok ⟨0, 0, "LAN_X_CV_NACK"⟩)
    (req : List Nat) :
    ∀ remaining i lastErr, 1 ≤ remaining →
      readCVAttempts transport req i remaining lastErr =
        Except.error "cannot read CV: missing RailCom acknowledgement (NACK_SC)" := by
  intro remaining
  induction remaining with
  | zero => intro i lastErr h; omega
  | succ n ih =>
    intro i lastErr h
    simp only [readCVAttempts, hnack req i]
    cases n with
    | zero => rfl
    | succ m => exact ih (i + 1) _ (by omega)

/-- C1 counterexample: with retries = 1 and a transport answering a
semantic NACK on attempt 0 and a CV result on attempt 1, readCVValue
returns the attempt-1 result: the read request was re-sent after the
NACK and the extra attempt was consumed, instead of the NACK being
returned as a non-retried error as the claim states. -/
theorem nack_not_retried_counterexample :
    readCVValue MainTrackMode ⟨3, 8, 0⟩ 1
      (fun _ i => if i = 0 then SendOutcome.ok ⟨0, 0, "LAN_X_CV_NACK"⟩
        else SendOutcome.ok ⟨7, 5, "LAN_X_CV_RESULT"⟩) =
      Except.ok ⟨7, 5, "LAN_X_CV_RESULT"⟩ := rfl

/-- C1 amended: a semantic NACK is not surfaced immediately: the loop in
readCVValue re-sends the request (consuming attempts, without the
inter-attempt sleep), and only when every attempt up to the retries
budget has answered a NACK is the last NACK surfaced, wrapped as the
distinct error shown; a later successful attempt instead yields its
result. -/
theorem nack_retried_amended :
    (∀ (lcv : LocoCV) (retries : Nat) (transport : List Nat → Nat → SendOutcome),
      (∀ req i, transport req i = SendOutcome.ok ⟨0, 0, "LAN_X_CV_NACK"⟩) →
      readCVValue MainTrackMode lcv retries transport =
        Except.error "cannot read CV: missing RailCom acknowledgement (NACK_SC)") ∧
    (∀ (lcv : LocoCV) (transport : List Nat → Nat → SendOutcome) (res : cvResult),
      (∀ req, transport req 0 = SendOutcome.ok ⟨0, 0, "LAN_X_CV_NACK"⟩) →
      (∀ req, transport req 1 = SendOutcome.ok res) →
      res.source = "LAN_X_CV_RESULT" →
      readCVValue MainTrackMode lcv 1 transport = Except.ok res) := by
  constructor
  · intro lcv retries transport hnack
    show readCVAttempts transport (buildPomReadPacket lcv) 0 (retries + 1) none = _
    exact readCVAttempts_allNack transport hnack _ (retries + 1) 0 none (by omega)
  · intro lcv transport res h0 h1 hsrc
    show readCVAttempts transport (buildPomReadPacket lcv) 0 2 none = _
    simp only [readCVAttempts, h0, h1]
    simp [cvResult.Error, hsrc]

/-- C1 witness: the amended behavior at a concrete all-NACK transport
with retries = 0. -/
theorem nack_retried_amended_witness :
    readCVValue MainTrackMode ⟨3, 8, 0⟩ 0
      (fun _ _ => SendOutcome.ok ⟨0, 0, "LAN_X_CV_NACK"⟩) =
      Except.error "cannot read CV: missing RailCom acknowledgement (NACK_SC)" :=
  nack_retried_amended.1 ⟨3, 8, 0⟩ 0 _ (fun _ _ => rfl)

theorem adrMSB_expr_low (a : Nat) (h1 : 1 ≤ a) (h2 : a ≤ 127) :
    (if a ≥ 128 then ((a >>> 8) &&& 0x3F) % 256 ||| 0xC0
      else ((a >>> 8) &&& 0x3F) % 256) = (a >>> 8) &&& 0x3F ∧
    (a >>> 8) &&& 0x3F = 0 := by
  have hs : a >>> 8 = 0 := by
    rw [Nat.shiftRight_eq_div_pow]
    omega
  have hc : ¬ a ≥ 128 := by omega
  rw [if_neg hc, hs]
  simp

theorem adrMSB_expr_high (a : Nat) (h1 : 128 ≤ a) :
    Nat.testBit (if a ≥ 128 then ((a >>> 8) &&& 0x3F) % 256 ||| 0xC0
      else ((a >>> 8) &&& 0x3F) % 256) 7 = true ∧
    Nat.testBit (if a ≥ 128 then ((a >>> 8) &&& 0x3F) % 256 ||| 0xC0
      else ((a >>> 8) &&& 0x3F) % 256) 6 = true := by
  rw [if_pos h1]
  constructor <;>
    simp [Nat.testBit_or, show Nat.testBit 0xC0 7 = true from rfl,
      show Nat.testBit 0xC0 6 = true from rfl]

theorem adrLSB_expr (a : Nat) : (a &&& 0xFF) % 256 = a &&& 0xFF := by
  rw [land_255_eq_mod]
  omega

/-- C6: each of the five address-carrying builders places the address
bytes at frame offsets 6 and 7; for addresses 1..127 the high byte is
(a>>8)&0x3F with bits 7 and 6 clear and the low byte is a&0xFF, and for
addresses 128..10239 bits 7 and 6 of the high byte are forced to 11. -/
theorem address_encoding (a : Nat) (cv : CV) (fn speedIn speedSteps : Nat)
    (toggle forward : Bool) :
    (1 ≤ a → a ≤ 127 →
      ((buildPomReadPacket ⟨a, cv⟩).getD 6 0 = (a >>> 8) &&& 0x3F ∧
        Nat.testBit ((buildPomReadPacket ⟨a, cv⟩).getD 6 0) 7 = false ∧
        Nat.testBit ((buildPomReadPacket ⟨a, cv⟩).getD 6 0) 6 = false ∧
        (buildPomReadPacket ⟨a, cv⟩).getD 7 0 = a &&& 0xFF) ∧
      ((buildPomWriteByte ⟨a, cv⟩).getD 6 0 = (a >>> 8) &&& 0x3F ∧
        Nat.testBit ((buildPomWriteByte ⟨a, cv⟩).getD 6 0) 7 = false ∧
        Nat.testBit ((buildPomWriteByte ⟨a, cv⟩).getD 6 0) 6 = false ∧
        (buildPomWriteByte ⟨a, cv⟩).getD 7 0 = a &&& 0xFF) ∧
      ((buildGetLocoInfo a).getD 6 0 = (a >>> 8) &&& 0x3F ∧
        Nat.testBit ((buildGetLocoInfo a).getD 6 0) 7 = false ∧
        Nat.testBit ((buildGetLocoInfo a).getD 6 0) 6 = false ∧
        (buildGetLocoInfo a).getD 7 0 = a &&& 0xFF) ∧
      ((buildSetLocoFunction a fn toggle).getD 6 0 = (a >>> 8) &&& 0x3F ∧
        Nat.testBit ((buildSetLocoFunction a fn toggle).getD 6 0) 7 = false ∧
        Nat.testBit ((buildSetLocoFunction a fn toggle).getD 6 0) 6 = false ∧
        (buildSetLocoFunction a fn toggle).getD 7 0 = a &&& 0xFF) ∧
      ((buildSetLocoSpeed a speedIn forward speedSteps).getD 6 0 = (a >>> 8) &&& 0x3F ∧
        Nat.testBit ((buildSetLocoSpeed a speedIn forward speedSteps).getD 6 0) 7 = false ∧
        Nat.testBit ((buildSetLocoSpeed a speedIn forward speedSteps).getD 6 0) 6 = false ∧
        (buildSetLocoSpeed a speedIn forward speedSteps).getD 7 0 = a &&& 0xFF)) ∧
    (128 ≤ a → a ≤ 10239 →
      (Nat.testBit ((buildPomReadPacket ⟨a, cv⟩).getD 6 0) 7 = true ∧
        Nat.testBit ((buildPomReadPacket ⟨a, cv⟩).getD 6 0) 6 = true) ∧
      (Nat.testBit ((buildPomWriteByte ⟨a, cv⟩).getD 6 0) 7 = true ∧
        Nat.testBit ((buildPomWriteByte ⟨a, cv⟩).getD 6 0) 6 = true) ∧
      (Nat.testBit ((buildGetLocoInfo a).getD 6 0) 7 = true ∧
        Nat.testBit ((buildGetLocoInfo a).getD 6 0) 6 = true) ∧
      (Nat.testBit ((buildSetLocoFunction a fn toggle).getD 6 0) 7 = true ∧
        Nat.testBit ((buildSetLocoFunction a fn toggle).getD 6 0) 6 = true) ∧
      (Nat.testBit ((buildSetLocoSpeed a speedIn forward speedSteps).getD 6 0) 7 = true ∧
        Nat.testBit ((buildSetLocoSpeed a speedIn forward speedSteps).getD 6 0) 6 = true)) := by
  constructor
  · intro h1 h2
    have hv := (adrMSB_expr_low a h1 h2).1
    have hvz := (adrMSB_expr_low a h1 h2).1.trans (adrMSB_expr_low a h1 h2).2
    have hb7 : Nat.testBit (if a ≥ 128 then ((a >>> 8) &&& 0x3F) % 256 ||| 0xC0
        else ((a >>> 8) &&& 0x3F) % 256) 7 = false := by rw [hvz]; simp
    have hb6 : Nat.testBit (if a ≥ 128 then ((a >>> 8) &&& 0x3F) % 256 ||| 0xC0
        else ((a >>> 8) &&& 0x3F) % 256) 6 = false := by rw [hvz]; simp
    exact ⟨⟨hv, hb7, hb6, adrLSB_expr a⟩, ⟨hv, hb7, hb6, adrLSB_expr a⟩,
      ⟨hv, hb7, hb6, adrLSB_expr a⟩, ⟨hv, hb7, hb6, adrLSB_expr a⟩,
      ⟨hv, hb7, hb6, adrLSB_expr a⟩⟩
  · intro h1 h2
    have hh := adrMSB_expr_high a h1
    exact ⟨⟨hh.1, hh.2⟩, ⟨hh.1, hh.2⟩, ⟨hh.1, hh.2⟩, ⟨hh.1, hh.2⟩, ⟨hh.1, hh.2⟩⟩

/-- C6 witness at the short address 3 and the long address 200. -/
theorem address_encoding_witness :
    ((buildGetLocoInfo 3).getD 6 0 = (3 >>> 8) &&& 0x3F ∧
      Nat.testBit ((buildGetLocoInfo 3).getD 6 0) 7 = false ∧
      Nat.testBit ((buildGetLocoInfo 3).getD 6 0) 6 = false ∧
      (buildGetLocoInfo 3).getD 7 0 = 3 &&& 0xFF) ∧
    (Nat.testBit ((buildGetLocoInfo 200).getD 6 0) 7 = true ∧
      Nat.testBit ((buildGetLocoInfo 200).getD 6 0) 6 = true) :=
  ⟨((address_encoding 3 ⟨1, 0⟩ 0 0 0 true true).1 (by omega) (by omega)).2.2.1,
   ((address_encoding 200 ⟨1, 0⟩ 0 0 0 true true).2 (by omega) (by omega)).2.2.1⟩

/-- C7: for every user CV number 1..65536 (stored as a uint16), Translate
yields cvNumber-1; the built frames carry exactly those wire bytes
(translation applied once, shown for the prog-read CV bytes at offsets
6-7 and the POM CV low byte at offset 9); and parsing a CV-result
response frame carrying that wire CV returns the same wire CV number. -/
theorem cv_translate_roundtrip (cvNumber : Nat) (h1 : 1 ≤ cvNumber)
    (h2 : cvNumber ≤ 65536) (v : Int) (val chk : Nat) :
    CV.Translate ⟨cvNumber % 65536, v⟩ = cvNumber - 1 ∧
    (buildProgReadPacket ⟨cvNumber % 65536, v⟩).getD 6 0 = (cvNumber - 1) / 256 ∧
    (buildProgReadPacket ⟨cvNumber % 65536, v⟩).getD 7 0 = (cvNumber - 1) % 256 ∧
    (buildPomReadPacket ⟨3, cvNumber % 65536, v⟩).getD 9 0 = (cvNumber - 1) % 256 ∧
    parseCVResponse [10, 0, 0x40, 0, 0x64, 0x14,
        (cvNumber - 1) / 256, (cvNumber - 1) % 256, val, chk] =
      Except.ok (some ⟨cvNumber - 1, val, "LAN_X_CV_RESULT"⟩) := by
  have htr : CV.Translate ⟨cvNumber % 65536, v⟩ = cvNumber - 1 := by
    show ((cvNumber % 65536) + 65535) % 65536 = cvNumber - 1
    omega
  have hpow : (2 : Nat) ^ 8 = 256 := by norm_num
  refine ⟨htr, ?_, ?_, ?_, ?_⟩
  · show ((CV.Translate ⟨cvNumber % 65536, v⟩) >>> 8) % 256 = (cvNumber - 1) / 256
    rw [htr, Nat.shiftRight_eq_div_pow, hpow]
    omega
  · show ((CV.Translate ⟨cvNumber % 65536, v⟩) &&& 0xFF) % 256 = (cvNumber - 1) % 256
    rw [htr, land_255_eq_mod]
    omega
  · show ((CV.Translate ⟨cvNumber % 65536, v⟩) &&& 0xFF) % 256 = (cvNumber - 1) % 256
    rw [htr, land_255_eq_mod]
    omega
  · have hlor := shiftLeft_lor_eq_add ((cvNumber - 1) / 256) ((cvNumber - 1) % 256) 8
      (by omega)
    simp only [parseCVResponse, byteAt, Bind.bind, Except.bind, Pure.pure, Except.pure]
    simp [hlor, hpow]
    omega

/-- C7 witness at cvNumber = 2 (wire CV 1). -/
theorem cv_translate_roundtrip_witness :
    CV.Translate ⟨2 % 65536, 0⟩ = 1 ∧
    parseCVResponse [10, 0, 0x40, 0, 0x64, 0x14, 1 / 256, 1 % 256, 5, 0x74] =
      Except.ok (some ⟨1, 5, "LAN_X_CV_RESULT"⟩) :=
  ⟨(cv_translate_roundtrip 2 (by omega) (by omega) 0 5 0x74).1,
   (cv_translate_roundtrip 2 (by omega) (by omega) 0 5 0x74).2.2.2.2⟩

/-- C8: when verify is requested and the frame write succeeded, WriteCV
performs the read with the context's retry budget and succeeds exactly
when the read-back value equals the written wire value; an unequal
read-back yields the distinct verify-mismatch error, and a failed read
yields a wrapped verify error, never success. -/
theorem writecv_verify_semantics (mode : String) (lcv : LocoCV) (ctx : RequestContext)
    (transport : List Nat → Nat → SendOutcome)
    (hmode : mode = MainTrackMode ∨ mode = ProgrammingTrackMode)
    (hverify : ctx.verify = true) :
    (WriteCVModel mode lcv ctx none transport = Except.ok () ↔
      (∃ res : cvResult, readCVValue mode lcv ctx.retries transport = Except.ok res ∧
        res.value = byteOfInt lcv.cv.value)) ∧
    (∀ res : cvResult, readCVValue mode lcv ctx.retries transport = Except.ok res →
      res.value ≠ byteOfInt lcv.cv.value →
      WriteCVModel mode lcv ctx none transport =
        Except.error "cannot write CV, the value differs after a write") ∧
    (∀ e : String, readCVValue mode lcv ctx.retries transport = Except.error e →
      WriteCVModel mode lcv ctx none transport =
        Except.error ("cannot verify CV was written: " ++ e)) := by
  obtain ⟨req, hreq⟩ : ∃ req, buildCVRequest mode lcv true = Except.ok req := by
    rcases hmode with h | h <;> subst h <;> exact ⟨_, rfl⟩
  unfold WriteCVModel
  rw [hreq, hverify]
  simp only [if_true]
  cases hrd : readCVValue mode lcv ctx.retries transport with
  | error e =>
    refine ⟨?_, ?_, ?_⟩
    · simp
    · intro res hres
      simp at hres
    · intro e2 he
      injection he with he2
      rw [he2]
  | ok res =>
    refine ⟨?_, ?_, ?_⟩
    · by_cases hv : res.value = byteOfInt lcv.cv.value
      · constructor
        · intro _
          exact ⟨res, rfl, hv⟩
        · intro _
          simp [hv]
      · constructor
        · intro h
          simp [hv] at h
        · rintro ⟨res2, hres2, hval2⟩
          injection hres2 with hres2
          subst hres2
          exact absurd hval2 hv
    · intro res2 hres2 hval2
      injection hres2 with hres2
      subst hres2
      simp [hval2]
    · intro e2 he2
      simp at he2

/-- C8 witness: a transport returning value 5 verifies a write of 5 and
rejects a write of 6 with the mismatch error. -/
theorem writecv_verify_semantics_witness :
    (WriteCVModel MainTrackMode ⟨3, 8, 5⟩ ⟨0, true, 0, 0⟩ none
        (fun _ _ => SendOutcome.ok ⟨7, 5, "LAN_X_CV_RESULT"⟩) = Except.ok ()) ∧
    (WriteCVModel MainTrackMode ⟨3, 8, 6⟩ ⟨0, true, 0, 0⟩ none
        (fun _ _ => SendOutcome.ok ⟨7, 5, "LAN_X_CV_RESULT"⟩) =
      Except.error "cannot write CV, the value differs after a write") :=
  ⟨(writecv_verify_semantics MainTrackMode ⟨3, 8, 5⟩ ⟨0, true, 0, 0⟩
      (fun _ _ => SendOutcome.ok ⟨7, 5, "LAN_X_CV_RESULT"⟩)
      (Or.inl rfl) rfl).1.mpr ⟨⟨7, 5, "LAN_X_CV_RESULT"⟩, rfl, rfl⟩,
   (writecv_verify_semantics MainTrackMode ⟨3, 8, 6⟩ ⟨0, true, 0, 0⟩
      (fun _ _ => SendOutcome.ok ⟨7, 5, "LAN_X_CV_RESULT"⟩)
      (Or.inl rfl) rfl).2.1 ⟨7, 5, "LAN_X_CV_RESULT"⟩ rfl (by decide)⟩

/-!  Parser totality and classification. -/

theorem except_bind_ok {a b : Type} (x : a) (f : a → Except Unit b) :
    (Except.ok x : Except Unit a) >>= f = f x := rfl

theorem except_pure_bind {a b : Type} (x : a) (f : a → Except Unit b) :
    (pure x : Except Unit a) >>= f = f x := rfl

theorem byteAt_ok (pkt : List Nat) (i : Nat) (h : i < pkt.length) :
    byteAt pkt i = Except.ok (pkt.getD i 0) := by
  unfold byteAt
  rw [List.getElem?_eq_getElem h]
  simp [List.getD_eq_getElem?_getD, List.getElem?_eq_getElem h]

set_option maxHeartbeats 1000000 in
theorem parseCVResponse_eq_spec (pkt : List Nat) :
    parseCVResponse pkt = Except.ok (parseCVResponseSpec pkt) := by
  rcases pkt with _ | ⟨b0, pkt⟩
  · rfl
  rcases pkt with _ | ⟨b1, pkt⟩
  · rfl
  rcases pkt with _ | ⟨b2, pkt⟩
  · rfl
  rcases pkt with _ | ⟨b3, pkt⟩
  · rfl
  rcases pkt with _ | ⟨b4, pkt⟩
  · rfl
  rcases pkt with _ | ⟨b5, rest⟩
  · rfl
  by_cases h10 : 4 ≤ rest.length
  · rcases rest with _ | ⟨b6, rest⟩
    · simp at h10
    rcases rest with _ | ⟨b7, rest⟩
    · simp at h10
    rcases rest with _ | ⟨b8, rest⟩
    · simp at h10
    rcases rest with _ | ⟨b9, rest⟩
    · simp at h10
    simp only [parseCVResponse, parseCVResponseSpec, byteAt, Bind.bind, Except.bind,
      Pure.pure, Except.pure, List.length_cons, List.getElem?_cons_zero,
      List.getElem?_cons_succ, List.getD_cons_zero, List.getD_cons_succ]
    split_ifs <;> simp_all <;> omega
  · simp only [parseCVResponse, parseCVResponseSpec, byteAt, Bind.bind, Except.bind,
      Pure.pure, Except.pure, List.length_cons, List.getElem?_cons_zero,
      List.getElem?_cons_succ, List.getD_cons_zero, List.getD_cons_succ]
    split_ifs <;> simp_all <;> omega

theorem parseLocoInfo_isOk (pkt : List Nat) : (parseLocoInfo pkt).isOk = true := by
  unfold parseLocoInfo
  by_cases h7 : pkt.length < 7
  · rw [if_pos h7]
    rfl
  rw [if_neg h7]
  rw [byteAt_ok pkt 0 (by omega), except_bind_ok]
  rw [byteAt_ok pkt 1 (by omega), except_bind_ok]
  rw [byteAt_ok pkt 2 (by omega), except_bind_ok]
  rw [byteAt_ok pkt 3 (by omega), except_bind_ok]
  by_cases hh : pkt.getD 2 0 ||| (pkt.getD 3 0 <<< 8) ≠ 0x0040 ∨
      pkt.getD 0 0 ||| (pkt.getD 1 0 <<< 8) ≠ pkt.length
  · rw [if_pos hh]
    rfl
  rw [if_neg hh]
  try simp only [except_pure_bind, except_bind_ok]
  rw [byteAt_ok pkt 4 (by omega), except_bind_ok]
  by_cases hEF : pkt.getD 4 0 ≠ 0xEF
  · rw [if_pos hEF]
    rfl
  rw [if_neg hEF]
  try simp only [except_pure_bind, except_bind_ok]
  by_cases h9 : pkt.length > 9 <;>
    [rw [if_pos h9, byteAt_ok pkt 9 (by omega)]; rw [if_neg h9]] <;>
    (try simp only [except_pure_bind, except_bind_ok]) <;>
  (by_cases h10 : pkt.length > 10 <;>
    [rw [if_pos h10, byteAt_ok pkt 10 (by omega)]; rw [if_neg h10]] <;>
    (try simp only [except_pure_bind, except_bind_ok])) <;>
  (by_cases h11 : pkt.length > 11 <;>
    [rw [if_pos h11, byteAt_ok pkt 11 (by omega)]; rw [if_neg h11]] <;>
    (try simp only [except_pure_bind, except_bind_ok])) <;>
  (by_cases h12 : pkt.length > 12 <;>
    [rw [if_pos h12, byteAt_ok pkt 12 (by omega)]; rw [if_neg h12]] <;>
    (try simp only [except_pure_bind, except_bind_ok])) <;>
  (by_cases h13 : pkt.length > 13 <;>
    [rw [if_pos h13, byteAt_ok pkt 13 (by omega)]; rw [if_neg h13]] <;>
    (try simp only [except_pure_bind, except_bind_ok])) <;>
  rfl

/-- C10: over the checked-access embedding, parseCVResponse and
parseLocoInfo return without any out-of-range access on every input (no
Except-layer error), and parseCVResponse classifies exactly as the
claimed table: a CV result only for packets of length at least 10 with
header 0x0040, declared length equal to actual length and bytes 4-5
equal to 64 14; a NACK only for bytes 4-5 equal to 61 13 or 61 12 under
the same structural validity; every other input, including all inputs
shorter than 6 bytes, rejected. -/
theorem parsers_safe_and_classified (pkt : List Nat) :
    parseCVResponse pkt = Except.ok (parseCVResponseSpec pkt) ∧
    (parseLocoInfo pkt).isOk = true :=
  ⟨parseCVResponse_eq_spec pkt, parseLocoInfo_isOk pkt⟩

end Loco
